import Mathlib

/-!
Shallow embedding of `dbus_next/service.py`: the service-interface core of
python-dbus-next.  Member descriptors (`_Method`, `_Signal`, `_Property`),
the interface registrar (`ServiceInterface.__init__`), the dispatch engine
(`_fn_result_to_body`, `_handle_signal`, the `signal`/`method` decorator
wrappers, `emit_properties_changed`) and the introspection projector
(`introspect`) are translated into executable Lean definitions.

Python values that can appear in message bodies are modelled by `PyVal`;
an absent (`None`) function result is modelled by `Option PyVal`.  Python
callables with side effects are modelled as state transformers
`σ → σ × Option PyVal`, so that "the underlying callable was executed"
is visible as a state change.  Callable identity (used as the merge key
for properties) is modelled by a `Nat` id.  The attached-bus collection
is a Python `set`; it is modelled as a duplicate-free `List Nat` whose
iteration order is not meaningful (membership and counts are).
-/

namespace DBusNext

/-- Modelled from the spec: `PropertyAccess` lives in `dbus_next.constants`,
which is not part of the core file; the spec gives access modes
READ | WRITE | READWRITE. -/
inductive PropertyAccess where
  | read
  | write
  | readwrite
  deriving DecidableEq, Repr

/-- Modelled from the spec: an access mode permits writing iff it is
WRITE or READWRITE. -/
def PropertyAccess.writable : PropertyAccess → Bool
  | .read => false
  | .write => true
  | .readwrite => true

/-- Python values that can appear in a D-Bus message body.  A `pyVariant`
is the external tagged-value wrapper `Variant(signature, value)`;
`pyDict` is an insertion-ordered string-keyed dict. -/
inductive PyVal where
  | pyStr (s : String)
  | pyInt (n : Int)
  | pyBool (b : Bool)
  | pyList (xs : List PyVal)
  | pyDict (entries : List (String × PyVal))
  | pyVariant (sig : String) (val : PyVal)
  deriving Repr

/-- The options record passed by the `dbus_property` decorator:
`{'name': ..., 'access': ..., 'disabled': ...}` (all three keys always
present). -/
structure PropOptions where
  nameOpt : Option String
  access : PropertyAccess
  disabled : Bool
  deriving DecidableEq, Repr

/-- Embeds `_Property`: the property descriptor.  `prop_getter`/`prop_setter`
hold callable identities (`None` setter = `none`).  `signature` is the
single complete type from the getter's return annotated string (the
external signature parser guarantees exactly one token). -/
structure ServiceProperty where
  prop_getter : Nat
  getterName : String
  prop_setter : Option Nat
  signature : String
  options : PropOptions
  name : String
  access : PropertyAccess
  disabled : Bool
  deriving DecidableEq, Repr

/-- Embeds `_Property.set_options`: records the options dict and recomputes the
derived fields `name` (option override or the getter callable's own name),
`access`, `disabled`. -/
def ServiceProperty.set_options (p : ServiceProperty) (o : PropOptions) :
    ServiceProperty :=
  { p with
    options := o
    name := match o.nameOpt with
      | some n => n
      | none => p.getterName
    access := o.access
    disabled := o.disabled }

/-- The `dbus_property` decorator applied to a getter callable: builds a
`_Property` from the getter's identity, name and return signature, then
applies the options. -/
def dbus_property (access : PropertyAccess) (nameOpt : Option String)
    (disabled : Bool) (getterId : Nat) (getterName : String)
    (signature : String) : ServiceProperty :=
  ServiceProperty.set_options
    { prop_getter := getterId
      getterName := getterName
      prop_setter := none
      signature := signature
      options := ⟨nameOpt, access, disabled⟩
      name := getterName
      access := access
      disabled := disabled }
    ⟨nameOpt, access, disabled⟩

/-- Embeds `_Property.setter`: Python's `property.setter` recreates the
descriptor from the same getter (so `prop_getter`, `getterName` and
`signature` are recomputed identically), attaches the setter callable,
and re-applies the previously stored options. -/
def ServiceProperty.setter (p : ServiceProperty) (fnId : Nat) :
    ServiceProperty :=
  ServiceProperty.set_options { p with prop_setter := some fnId } p.options

/-- Embeds `_Method`: the method descriptor (fields relevant to this development). -/
structure ServiceMethod where
  name : String
  disabled : Bool
  in_signature : String
  out_signature : String
  deriving DecidableEq, Repr

/-- Embeds `_Signal`: the signal descriptor.  `types` is the ordered list of
complete-type tokens that the external signature parser produces from
the return annotated string `signature` (empty when there is no return
annotated string). -/
structure ServiceSignal where
  name : String
  disabled : Bool
  signature : String
  types : List String
  deriving DecidableEq, Repr

/-- One call of `bus._interface_signal_notify(interface, interface_name,
member, signature, body)` on an attached bus, recorded as data. -/
structure BusNotify where
  bus : Nat
  interfaceName : String
  member : String
  signature : String
  body : List PyVal
  deriving Repr

/-- A `ServiceInterface` instance after `__init__`: name, the three member
collections, and the attached-bus collection (a Python `set`, modelled as
a duplicate-free list whose order carries no meaning). -/
structure ServiceInterface where
  name : String
  methods : List ServiceMethod
  properties : List ServiceProperty
  signals : List ServiceSignal
  buses : List Nat
  deriving Repr

/-- A class-level member as seen by `inspect.getmembers` in
`ServiceInterface.__init__`: a `_Property`, a callable carrying a
`__DBUS_METHOD` marker, a callable carrying a `__DBUS_SIGNAL` marker, or
an unmarked member (ignored). -/
inductive Member where
  | prop (p : ServiceProperty)
  | meth (m : ServiceMethod)
  | sigMember (s : ServiceSignal)
  | plain
  deriving DecidableEq, Repr

/-- The property branch of the `__init__` classification loop: scan the
collected properties for one with the same getter callable; on a match
copy over a non-null setter; append only when no match was found. -/
def addProperty (props : List ServiceProperty) (member : ServiceProperty) :
    List ServiceProperty :=
  let found := props.any (fun p => p.prop_getter == member.prop_getter)
  let updated := props.map (fun p =>
    if p.prop_getter == member.prop_getter && member.prop_setter.isSome then
      { p with prop_setter := member.prop_setter }
    else p)
  if found then updated else updated ++ [member]

/-- The classification loop of `ServiceInterface.__init__`: fold over the
enumerated members, merging properties by getter identity and appending
methods and signals in order; unmarked members are ignored. -/
def classifyMembers (members : List Member) :
    List ServiceProperty × List ServiceMethod × List ServiceSignal :=
  members.foldl
    (fun acc m =>
      match m with
      | .prop p => (addProperty acc.1 p, acc.2.1, acc.2.2)
      | .meth mm => (acc.1, acc.2.1 ++ [mm], acc.2.2)
      | .sigMember ss => (acc.1, acc.2.1, acc.2.2 ++ [ss])
      | .plain => acc)
    ([], [], [])

/-- The properties collected by `ServiceInterface.__init__`. -/
def collectProperties (members : List Member) : List ServiceProperty :=
  (classifyMembers members).1

/-- Embeds `ServiceInterface.__init__`: classify the members, then validate that
every writable property has a setter; a violation raises `ValueError` and
no interface object exists.  The bus set starts empty. -/
def serviceInterfaceInit (name : String) (members : List Member) :
    Except String ServiceInterface :=
  let classified := classifyMembers members
  match classified.1.find? (fun p => p.access.writable && p.prop_setter.isNone) with
  | some _ => .error "property is writable but does not have a setter"
  | none =>
      .ok { name := name
            methods := classified.2.1
            properties := classified.1
            signals := classified.2.2
            buses := [] }

/-- Embeds `ServiceInterface._add_bus`, i.e. `interface.__buses.add(bus)` — adding to
a set is a no-op when the bus is already attached. -/
def addBus (iface : ServiceInterface) (bus : Nat) : ServiceInterface :=
  if bus ∈ iface.buses then iface
  else { iface with buses := iface.buses ++ [bus] }

/-- Embeds `ServiceInterface._fn_result_to_body`: convert a trigger result to a
message body under the arity contract.  `types` plays the part of
`signature_tree.types`. -/
def fn_result_to_body (result : Option PyVal) (types : List String) :
    Except String (List PyVal) :=
  match result with
  | none => .ok []
  | some r =>
      if types.length = 0 then
        .error "Function was not expected to return an argument"
      else if types.length = 1 then
        .ok [r]
      else
        match r with
        | .pyList xs => .ok xs
        | _ => .error "Expected function to return a list of arguments"

/-- Embeds `ServiceInterface._handle_signal`: convert the result to a body (any
mismatch error propagates before any bus is notified), then notify every
attached bus with `(interface name, signal name, signature, body)`. -/
def handle_signal (iface : ServiceInterface) (sig : ServiceSignal)
    (result : Option PyVal) : Except String (List BusNotify) :=
  match fn_result_to_body result sig.types with
  | .error e => .error e
  | .ok body =>
      .ok (iface.buses.map (fun b =>
        { bus := b
          interfaceName := iface.name
          member := sig.name
          signature := sig.signature
          body := body }))

/-- A call-time error raised by the signal trigger wrapper. -/
inductive CallError where
  | signalDisabled (msg : String)
  | signatureBodyMismatch (msg : String)
  deriving DecidableEq, Repr

/-- The wrapper installed by the `signal` decorator: if the signal is
disabled, raise `SignalDisabledError` before touching the underlying
callable; otherwise run the callable, hand its result to
`_handle_signal`, and return the result unchanged.  The callable is a
state transformer so that "executed" is visible as the state change;
the returned triple is (final state, returned value or error, bus
notifications issued). -/
def signalWrapped {σ : Type} (sig : ServiceSignal) (iface : ServiceInterface)
    (fn : σ → σ × Option PyVal) (s : σ) :
    σ × Except CallError (Option PyVal) × List BusNotify :=
  if sig.disabled then
    (s, .error (.signalDisabled "Tried to call a disabled signal"), [])
  else
    let run := fn s
    match handle_signal iface sig run.2 with
    | .error e => (run.1, .error (.signatureBodyMismatch e), [])
    | .ok notifies => (run.1, .ok run.2, notifies)

/-- The wrapper installed by the `method` decorator: `wrapped` calls the
underlying function and falls off the end, so it always returns `None`. -/
def methodWrapped {σ : Type} (fn : σ → σ × Option PyVal) (s : σ) :
    σ × Option PyVal :=
  let run := fn s
  (run.1, none)

/-- Python dict assignment `d[k] = v` on an insertion-ordered dict: an
existing key keeps its position and gets the new value, a new key is
appended. -/
def dictAssign (d : List (String × PyVal)) (k : String) (v : PyVal) :
    List (String × PyVal) :=
  if d.any (fun e => e.1 == k) then
    d.map (fun e => if e.1 == k then (k, v) else e)
  else
    d ++ [(k, v)]

/-- The `variant_dict` loop of `emit_properties_changed`: for each known
property whose name is a key of `changed`, store
`Variant(prop.signature, changed[prop.name])` under the property's name. -/
def buildVariantDict (props : List ServiceProperty)
    (changed : List (String × PyVal)) : List (String × PyVal) :=
  props.foldl
    (fun d prop =>
      match changed.lookup prop.name with
      | some v => dictAssign d prop.name (.pyVariant prop.signature v)
      | none => d)
    []

/-- Embeds `ServiceInterface.emit_properties_changed`: build the body
`[interface name, variant_dict, invalidated]` and notify every attached
bus on `org.freedesktop.DBus.Properties` / `PropertiesChanged` with
signature `sa{sv}as`. -/
def emit_properties_changed (iface : ServiceInterface)
    (changed : List (String × PyVal)) (invalidated : List String) :
    List BusNotify :=
  let variantDict := buildVariantDict iface.properties changed
  let body := [PyVal.pyStr iface.name, PyVal.pyDict variantDict,
               PyVal.pyList (invalidated.map PyVal.pyStr)]
  iface.buses.map (fun b =>
    { bus := b
      interfaceName := "org.freedesktop.DBus.Properties"
      member := "PropertiesChanged"
      signature := "sa\x7bsv\x7das"
      body := body })

/-- The introspection view of a property (`intr.Property`). -/
structure IntrProperty where
  name : String
  signature : String
  access : PropertyAccess
  deriving DecidableEq, Repr

/-- The introspection view of a method (`intr.Method`). -/
structure IntrMethod where
  name : String
  in_signature : String
  out_signature : String
  deriving DecidableEq, Repr

/-- The introspection view of a signal (`intr.Signal`). -/
structure IntrSignal where
  name : String
  signature : String
  deriving DecidableEq, Repr

/-- The introspection view of an interface (`intr.Interface`). -/
structure IntrInterface where
  name : String
  methods : List IntrMethod
  signals : List IntrSignal
  properties : List IntrProperty
  deriving DecidableEq, Repr

/-- Embeds `ServiceInterface.introspect`: project the interface, keeping only
members that are not disabled. -/
def introspect (iface : ServiceInterface) : IntrInterface :=
  { name := iface.name
    methods := (iface.methods.filter (fun m => !m.disabled)).map
      (fun m => { name := m.name, in_signature := m.in_signature,
                  out_signature := m.out_signature })
    signals := (iface.signals.filter (fun s => !s.disabled)).map
      (fun s => { name := s.name, signature := s.signature })
    properties := (iface.properties.filter (fun p => !p.disabled)).map
      (fun p => { name := p.name, signature := p.signature,
                  access := p.access }) }

/-- Concrete fixture: a signal declared with return annotated string `'s'`
(one OUT argument). -/
def sigOneOut : ServiceSignal :=
  { name := "StringSignal", disabled := false, signature := "s", types := ["s"] }

/-- Concrete fixture: a signal declared with return annotated string `'ss'`
(two OUT arguments). -/
def sigTwoOut : ServiceSignal :=
  { name := "TwoStrings", disabled := false, signature := "ss", types := ["s", "s"] }

/-- Concrete fixture: a signal declared with no return annotated string
(zero OUT arguments). -/
def sigNoOut : ServiceSignal :=
  { name := "Ping", disabled := false, signature := "", types := [] }

/-- Concrete fixture: a disabled signal. -/
def sigDisabledFx : ServiceSignal :=
  { name := "Hidden", disabled := true, signature := "s", types := ["s"] }

/-- Concrete fixture: an interface carrying the fixture signals with a
single attached bus `0`. -/
def ifaceFx : ServiceInterface :=
  { name := "com.example.Sample"
    methods := []
    properties := []
    signals := [sigOneOut, sigTwoOut, sigNoOut, sigDisabledFx]
    buses := [0] }

/-- Concrete fixture: a read-only string property named `status`. -/
def propStrFx : ServiceProperty :=
  dbus_property .read none false 11 "status" "s"

/-- Concrete fixture: a disabled read-only string property named
`hidden_prop`. -/
def propDisabledFx : ServiceProperty :=
  dbus_property .read none true 12 "hidden_prop" "s"

/-- Concrete fixture: a READWRITE property with no setter attached. -/
def writePropFx : ServiceProperty :=
  dbus_property .readwrite none false 3 "val" "s"

/-- Concrete fixture: an interface with the two property fixtures and a
single attached bus `0`. -/
def ifacePropsFx : ServiceInterface :=
  { name := "com.example.Props"
    methods := []
    properties := [propStrFx, propDisabledFx]
    signals := []
    buses := [0] }

/-- Claim C1 counterexample: a signal with one declared OUT argument whose
trigger function returns `None` does NOT fail — `_fn_result_to_body` maps
`None` to the empty body before the `out_len` checks, so the wrapper
returns `None` successfully and one notification (with empty body) IS sent
to the attached transport. -/
theorem c1_counterexample :
    signalWrapped sigOneOut ifaceFx (fun (s : Unit) => (s, none)) () =
      ((), .ok none,
       [{ bus := 0, interfaceName := "com.example.Sample",
          member := "StringSignal", signature := "s", body := [] }]) ∧
    (signalWrapped sigOneOut ifaceFx (fun (s : Unit) => (s, none)) ()).2.2.length = 1 :=
  ⟨rfl, rfl⟩

/-- Claim C1 (amended): for every signal, when the underlying function
returns `None` the body conversion yields the empty body regardless of the
number of declared OUT arguments; no mismatch error is raised, and one
notification with empty body is sent to each attached transport. -/
theorem c1_none_result_empty_body {σ : Type} (sig : ServiceSignal)
    (iface : ServiceInterface) (fn : σ → σ × Option PyVal) (s s' : σ)
    (hdis : sig.disabled = false) (hfn : fn s = (s', none)) :
    signalWrapped sig iface fn s =
      (s', .ok none,
       iface.buses.map (fun b =>
         { bus := b, interfaceName := iface.name, member := sig.name,
           signature := sig.signature, body := [] })) := by
  simp [signalWrapped, hdis, hfn, handle_signal, fn_result_to_body]

/-- Witness for `c1_none_result_empty_body` at the fixture input. -/
theorem c1_none_result_empty_body_witness :
    signalWrapped sigOneOut ifaceFx (fun (s : Unit) => (s, none)) () =
      ((), .ok none,
       ifaceFx.buses.map (fun b =>
         { bus := b, interfaceName := ifaceFx.name, member := sigOneOut.name,
           signature := sigOneOut.signature, body := [] })) :=
  c1_none_result_empty_body sigOneOut ifaceFx (fun (s : Unit) => (s, none)) () ()
    rfl rfl

/-- Claim C2: for a present result `r`, one declared OUT argument gives
body `[r]` with no sequence-type check on `r`; with more than one OUT
argument the body is `r` verbatim when `r` is a Python `list`, and
otherwise the dispatch fails with the body-mismatch error and no
notification is issued to any transport. -/
theorem c2_present_result_body {σ : Type} (sig : ServiceSignal)
    (iface : ServiceInterface) (fn : σ → σ × Option PyVal) (s s' : σ)
    (v : PyVal) (hdis : sig.disabled = false) (hfn : fn s = (s', some v)) :
    (sig.types.length = 1 →
       signalWrapped sig iface fn s =
         (s', .ok (some v),
          iface.buses.map (fun b =>
            { bus := b, interfaceName := iface.name, member := sig.name,
              signature := sig.signature, body := [v] }))) ∧
    (1 < sig.types.length →
       (∀ xs, v = PyVal.pyList xs →
          signalWrapped sig iface fn s =
            (s', .ok (some v),
             iface.buses.map (fun b =>
               { bus := b, interfaceName := iface.name, member := sig.name,
                 signature := sig.signature, body := xs }))) ∧
       ((∀ xs, v ≠ PyVal.pyList xs) →
          signalWrapped sig iface fn s =
            (s', .error (.signatureBodyMismatch
              "Expected function to return a list of arguments"), []))) := by
  refine ⟨?_, ?_⟩
  · intro h1
    simp [signalWrapped, hdis, hfn, handle_signal, fn_result_to_body, h1]
  · intro h2
    have h0 : sig.types.length ≠ 0 := by omega
    have h1 : sig.types.length ≠ 1 := by omega
    refine ⟨?_, ?_⟩
    · intro xs hv
      subst hv
      simp [signalWrapped, hdis, hfn, handle_signal, fn_result_to_body, h0, h1]
    · intro hnl
      cases v with
      | pyList xs => exact absurd rfl (hnl xs)
      | pyStr a =>
          simp [signalWrapped, hdis, hfn, handle_signal, fn_result_to_body, h0, h1]
      | pyInt n =>
          simp [signalWrapped, hdis, hfn, handle_signal, fn_result_to_body, h0, h1]
      | pyBool b =>
          simp [signalWrapped, hdis, hfn, handle_signal, fn_result_to_body, h0, h1]
      | pyDict es =>
          simp [signalWrapped, hdis, hfn, handle_signal, fn_result_to_body, h0, h1]
      | pyVariant sg w =>
          simp [signalWrapped, hdis, hfn, handle_signal, fn_result_to_body, h0, h1]

/-- Witness for `c2_present_result_body`: a signal declared `'ss'` whose
trigger returns `["a", "b"]` produces body `["a", "b"]` on the attached
transport. -/
theorem c2_present_result_body_witness :
    signalWrapped sigTwoOut ifaceFx
        (fun (s : Unit) => (s, some (PyVal.pyList [PyVal.pyStr "a", PyVal.pyStr "b"]))) () =
      ((), .ok (some (PyVal.pyList [PyVal.pyStr "a", PyVal.pyStr "b"])),
       ifaceFx.buses.map (fun b =>
         { bus := b, interfaceName := ifaceFx.name, member := sigTwoOut.name,
           signature := sigTwoOut.signature,
           body := [PyVal.pyStr "a", PyVal.pyStr "b"] })) :=
  (((c2_present_result_body sigTwoOut ifaceFx
      (fun (s : Unit) => (s, some (PyVal.pyList [PyVal.pyStr "a", PyVal.pyStr "b"])))
      () () (PyVal.pyList [PyVal.pyStr "a", PyVal.pyStr "b"]) rfl rfl).2
    (by decide)).1) [PyVal.pyStr "a", PyVal.pyStr "b"] rfl

/-- Claim C6: invoking a disabled signal raises the "signal disabled"
error before the underlying callable runs — the state is unchanged, so
the callable was never executed — and no transport is notified. -/
theorem c6_disabled_signal {σ : Type} (sig : ServiceSignal)
    (iface : ServiceInterface) (fn : σ → σ × Option PyVal) (s : σ)
    (hdis : sig.disabled = true) :
    signalWrapped sig iface fn s =
      (s, .error (.signalDisabled "Tried to call a disabled signal"), []) := by
  simp [signalWrapped, hdis]

/-- Witness for `c6_disabled_signal`: the fixture disabled signal with a
state-mutating callable; the state stays `0`. -/
theorem c6_disabled_signal_witness :
    signalWrapped sigDisabledFx ifaceFx
        (fun (n : Nat) => (n + 1, some (PyVal.pyStr "x"))) 0 =
      (0, .error (.signalDisabled "Tried to call a disabled signal"), []) :=
  c6_disabled_signal sigDisabledFx ifaceFx
    (fun (n : Nat) => (n + 1, some (PyVal.pyStr "x"))) 0 rfl

/-- Claim C8: a signal with zero declared OUT arguments whose trigger
returns a present value fails with the "Function was not expected to
return an argument" body-mismatch error, and no transport is notified. -/
theorem c8_unexpected_return {σ : Type} (sig : ServiceSignal)
    (iface : ServiceInterface) (fn : σ → σ × Option PyVal) (s s' : σ)
    (v : PyVal) (hdis : sig.disabled = false) (hn : sig.types = [])
    (hfn : fn s = (s', some v)) :
    signalWrapped sig iface fn s =
      (s', .error (.signatureBodyMismatch
        "Function was not expected to return an argument"), []) := by
  simp [signalWrapped, hdis, hfn, handle_signal, fn_result_to_body, hn]

/-- Witness for `c8_unexpected_return` at the fixture no-out signal. -/
theorem c8_unexpected_return_witness :
    signalWrapped sigNoOut ifaceFx
        (fun (s : Unit) => (s, some (PyVal.pyStr "x"))) () =
      ((), .error (.signatureBodyMismatch
        "Function was not expected to return an argument"), []) :=
  c8_unexpected_return sigNoOut ifaceFx
    (fun (s : Unit) => (s, some (PyVal.pyStr "x"))) () () (PyVal.pyStr "x")
    rfl rfl rfl

/-- Claim C9: the wrapper installed by the `method` decorator executes the
underlying function (the final state is the function's final state) but
always returns `None`, discarding the function's return value. -/
theorem c9_method_wrapper_discards {σ : Type} (fn : σ → σ × Option PyVal)
    (s : σ) :
    (methodWrapped fn s).1 = (fn s).1 ∧ (methodWrapped fn s).2 = none :=
  ⟨rfl, rfl⟩

/-- Claim C3: a successfully constructed interface has a setter on every
writable property, and whenever a collected property is writable with a
null setter, `__init__` raises and no interface object exists. -/
theorem c3_writable_requires_setter (name : String) (members : List Member) :
    (∀ iface, serviceInterfaceInit name members = .ok iface →
       ∀ p ∈ iface.properties, p.access.writable = true → p.prop_setter ≠ none) ∧
    ((∃ p ∈ collectProperties members,
        p.access.writable = true ∧ p.prop_setter = none) →
       ∃ e, serviceInterfaceInit name members = .error e) := by
  constructor
  · intro iface hok p hp hw hnone
    simp only [serviceInterfaceInit] at hok
    split at hok
    · exact absurd hok (by simp)
    · next hfind =>
        cases hok
        have := List.find?_eq_none.mp hfind p hp
        simp [hw, hnone] at this
  · rintro ⟨p, hp, hw, hnone⟩
    obtain ⟨q, hq⟩ : ∃ q, (classifyMembers members).1.find?
        (fun p => p.access.writable && p.prop_setter.isNone) = some q := by
      rw [← Option.isSome_iff_exists, List.find?_isSome]
      exact ⟨p, hp, by simp [hw, hnone]⟩
    refine ⟨"property is writable but does not have a setter", ?_⟩
    simp only [serviceInterfaceInit]
    rw [hq]

/-- Witness for `c3_writable_requires_setter`: registering an interface
whose only member is a READWRITE property without a setter fails. -/
theorem c3_writable_requires_setter_witness :
    ∃ e, serviceInterfaceInit "com.example.Sample" [Member.prop writePropFx] =
      .error e :=
  (c3_writable_requires_setter "com.example.Sample" [Member.prop writePropFx]).2
    ⟨writePropFx, by decide, by decide, rfl⟩

/-- Claim C4: declaring a getter and (in either enumeration order) a
setter sharing the same underlying getter callable yields exactly one
property descriptor in the collected properties, with the getter and
setter populated and the configured options (name, access, disabled)
intact. -/
theorem c4_property_merge (access : PropertyAccess) (nameOpt : Option String)
    (disabled : Bool) (gid fnId : Nat) (gname sigStr : String) :
    collectProperties
        [Member.prop (dbus_property access nameOpt disabled gid gname sigStr),
         Member.prop
           ((dbus_property access nameOpt disabled gid gname sigStr).setter fnId)] =
      [{ prop_getter := gid, getterName := gname, prop_setter := some fnId,
         signature := sigStr, options := ⟨nameOpt, access, disabled⟩,
         name := nameOpt.getD gname, access := access, disabled := disabled }] ∧
    collectProperties
        [Member.prop
           ((dbus_property access nameOpt disabled gid gname sigStr).setter fnId),
         Member.prop (dbus_property access nameOpt disabled gid gname sigStr)] =
      [{ prop_getter := gid, getterName := gname, prop_setter := some fnId,
         signature := sigStr, options := ⟨nameOpt, access, disabled⟩,
         name := nameOpt.getD gname, access := access, disabled := disabled }] := by
  cases nameOpt <;>
    simp [collectProperties, classifyMembers, addProperty, dbus_property,
          ServiceProperty.setter, ServiceProperty.set_options]

/-- Helper: assigning a fresh key into an insertion-ordered dict appends
the new entry. -/
theorem dictAssign_of_not_mem (d : List (String × PyVal)) (k : String)
    (v : PyVal) (h : ∀ e ∈ d, e.1 ≠ k) :
    dictAssign d k v = d ++ [(k, v)] := by
  have hfalse : d.any (fun e => e.1 == k) = false := by
    rw [List.any_eq_false]
    intro e he
    simp [h e he]
  simp [dictAssign, hfalse]

/-- Helper: the `variant_dict` fold over properties with pairwise
distinct names appends one tagged entry per recognized property, in
property order. -/
theorem variantDict_foldl (changed : List (String × PyVal))
    (props : List ServiceProperty) :
    ∀ acc : List (String × PyVal),
      (∀ p ∈ props, ∀ e ∈ acc, e.1 ≠ p.name) →
      (props.map (fun p => p.name)).Nodup →
      props.foldl
          (fun d prop =>
            match changed.lookup prop.name with
            | some v => dictAssign d prop.name (.pyVariant prop.signature v)
            | none => d) acc =
        acc ++ props.filterMap (fun p =>
          (changed.lookup p.name).map
            (fun v => (p.name, PyVal.pyVariant p.signature v))) := by
  induction props with
  | nil => intro acc _ _; simp
  | cons p ps ih =>
      intro acc hacc hnodup
      simp only [List.map_cons, List.nodup_cons] at hnodup
      obtain ⟨hpn, hnd⟩ := hnodup
      cases hlk : changed.lookup p.name with
      | none =>
          simp only [List.foldl_cons, List.filterMap_cons, hlk, Option.map_none']
          exact ih acc (fun q hq e he => hacc q (List.mem_cons_of_mem p hq) e he) hnd
      | some v =>
          simp only [List.foldl_cons, List.filterMap_cons, hlk, Option.map_some']
          rw [dictAssign_of_not_mem acc p.name (.pyVariant p.signature v)
                (fun e he => hacc p (List.mem_cons_self p ps) e he)]
          rw [ih (acc ++ [(p.name, PyVal.pyVariant p.signature v)]) ?_ hnd]
          · simp
          · intro q hq e he
            rcases List.mem_append.mp he with h1 | h2
            · exact hacc q (List.mem_cons_of_mem p hq) e h1
            · have he2 : e = (p.name, PyVal.pyVariant p.signature v) := by
                simpa using h2
              subst he2
              intro hcontra
              apply hpn
              have hpq : p.name = q.name := hcontra
              rw [hpq]
              exact List.mem_map_of_mem (fun r => r.name) hq

/-- Helper: with pairwise distinct property names, `buildVariantDict` is
exactly the ordered list of recognized properties tagged with their
single complete types; unrecognized changed names contribute nothing. -/
theorem buildVariantDict_eq (props : List ServiceProperty)
    (changed : List (String × PyVal))
    (hnodup : (props.map (fun p => p.name)).Nodup) :
    buildVariantDict props changed =
      props.filterMap (fun p =>
        (changed.lookup p.name).map
          (fun v => (p.name, PyVal.pyVariant p.signature v))) := by
  have h := variantDict_foldl changed props [] (by simp) hnodup
  simpa [buildVariantDict] using h

/-- Claim C5: `emit_properties_changed` sends exactly one notification
per attached transport, on `org.freedesktop.DBus.Properties` /
`PropertiesChanged` with signature `sa{sv}as`; its body is the interface
name, the mapping of each recognized changed property name to its tagged
value (unknown names silently dropped), and the invalidated list
verbatim (not validated against known properties). -/
theorem c5_emit_properties_changed (iface : ServiceInterface)
    (changed : List (String × PyVal)) (invalidated : List String)
    (hbus : iface.buses.Nodup)
    (hnames : (iface.properties.map (fun p => p.name)).Nodup) :
    (∀ b ∈ iface.buses,
       ((emit_properties_changed iface changed invalidated).filter
          (fun n => n.bus == b)).length = 1) ∧
    (∀ n ∈ emit_properties_changed iface changed invalidated,
       n.interfaceName = "org.freedesktop.DBus.Properties" ∧
       n.member = "PropertiesChanged" ∧
       n.signature = "sa\x7bsv\x7das" ∧
       n.body = [PyVal.pyStr iface.name,
                 PyVal.pyDict (iface.properties.filterMap (fun p =>
                   (changed.lookup p.name).map
                     (fun v => (p.name, PyVal.pyVariant p.signature v)))),
                 PyVal.pyList (invalidated.map PyVal.pyStr)]) := by
  constructor
  · intro b hb
    simp only [emit_properties_changed, List.filter_map, Function.comp]
    rw [List.length_map]
    rw [← List.countP_eq_length_filter]
    have hc := List.count_eq_one_of_mem hbus hb
    simpa [List.count] using hc
  · intro n hn
    simp only [emit_properties_changed, List.mem_map] at hn
    obtain ⟨b, _, hb⟩ := hn
    subst hb
    refine ⟨rfl, rfl, rfl, ?_⟩
    simp [buildVariantDict_eq iface.properties changed hnames]

/-- Witness for `c5_emit_properties_changed`: the fixture interface with
one attached bus receives exactly one `PropertiesChanged` notification. -/
theorem c5_emit_properties_changed_witness :
    ((emit_properties_changed ifacePropsFx [("status", PyVal.pyStr "ok")] []).filter
       (fun n => n.bus == 0)).length = 1 :=
  (c5_emit_properties_changed ifacePropsFx [("status", PyVal.pyStr "ok")] []
      (by decide) (by decide)).1 0 (by decide)

/-- Claim C10: `emit_properties_changed` does not filter disabled
properties: a disabled property named in `changed` still contributes its
tagged value to the `variant_dict` carried by every notification body,
even though `introspect` excludes the property from the projected view. -/
theorem c10_disabled_property_still_emitted (iface : ServiceInterface)
    (p : ServiceProperty) (v : PyVal) (changed : List (String × PyVal))
    (invalidated : List String)
    (hp : p ∈ iface.properties) (hdis : p.disabled = true)
    (hlk : changed.lookup p.name = some v)
    (hnames : (iface.properties.map (fun q => q.name)).Nodup) :
    ((p.name, PyVal.pyVariant p.signature v) ∈
       buildVariantDict iface.properties changed) ∧
    (∀ n ∈ emit_properties_changed iface changed invalidated,
       n.body = [PyVal.pyStr iface.name,
                 PyVal.pyDict (buildVariantDict iface.properties changed),
                 PyVal.pyList (invalidated.map PyVal.pyStr)]) ∧
    p.name ∉ (introspect iface).properties.map (fun q => q.name) := by
  refine ⟨?_, ?_, ?_⟩
  · rw [buildVariantDict_eq iface.properties changed hnames]
    exact List.mem_filterMap.mpr ⟨p, hp, by rw [hlk]; rfl⟩
  · intro n hn
    simp only [emit_properties_changed, List.mem_map] at hn
    obtain ⟨b, _, hb⟩ := hn
    subst hb
    rfl
  · intro hmem
    simp only [introspect, List.map_map, List.mem_map, Function.comp] at hmem
    obtain ⟨q, hq, hqname⟩ := hmem
    have hq2 := List.mem_filter.mp hq
    have hqp : q = p :=
      List.inj_on_of_nodup_map hnames hq2.1 hp hqname
    rw [hqp] at hq2
    simp [hdis] at hq2

/-- Witness for `c10_disabled_property_still_emitted`: the disabled
fixture property is tagged in the emitted dict yet absent from the
introspection view. -/
theorem c10_disabled_property_still_emitted_witness :
    ((propDisabledFx.name, PyVal.pyVariant propDisabledFx.signature (PyVal.pyStr "v")) ∈
       buildVariantDict ifacePropsFx.properties [("hidden_prop", PyVal.pyStr "v")]) ∧
    propDisabledFx.name ∉
      (introspect ifacePropsFx).properties.map (fun q => q.name) :=
  ⟨(c10_disabled_property_still_emitted ifacePropsFx propDisabledFx
      (PyVal.pyStr "v") [("hidden_prop", PyVal.pyStr "v")] []
      (by decide) (by decide) rfl (by decide)).1,
   (c10_disabled_property_still_emitted ifacePropsFx propDisabledFx
      (PyVal.pyStr "v") [("hidden_prop", PyVal.pyStr "v")] []
      (by decide) (by decide) rfl (by decide)).2.2⟩

end DBusNext
